import Mathlib

/-!
Shallow embedding of the transactional-ledger and inventory core of the
repository (database.py, ollama_integration.py, the action-processing loop
of bot.py).  Python floats are modelled as exact rationals, the two SQLite
tables as association lists, exceptions as an explicit error type, and the
nondeterministic inputs (uuid4, datetime.now) as extra parameters.
-/

deriving instance DecidableEq for Except

namespace BotAdministrador

/-- Whitespace as removed by the Python str.strip method. -/
def isPySpace (c : Char) : Bool :=
  c == ' ' || c == '\t' || c == '\n' || c == '\r' || c == '\x0b' || c == '\x0c'

/-- Model of the Python str.strip method: drop leading and trailing whitespace. -/
def pyStrip (s : String) : String :=
  String.mk (((s.data.dropWhile isPySpace).reverse.dropWhile isPySpace).reverse)

/-- ASCII lower-casing of one character (the case Python str.lower exercises
on the unit strings of this program). -/
def asciiLowerChar (c : Char) : Char :=
  if 'A' ≤ c ∧ c ≤ 'Z' then Char.ofNat (c.toNat + 32) else c

/-- Model of the Python str.lower method. -/
def pyLower (s : String) : String :=
  String.mk (s.data.map asciiLowerChar)

/-- Errors raised (as ValueError) by the database layer of database.py. -/
inductive DBError where
  | insufficientStock (producto : String) (disponible : ℚ) (unidad : String)
  | unknownProduct (producto : String)
  | notFound
  | permissionDenied
deriving DecidableEq

/-- database.py UNIT_NORMALIZATION: synonym table mapping unit spellings to
canonical units. -/
def UNIT_NORMALIZATION : List (String × String) :=
  [("kg", "kilos"), ("k", "kilos"), ("kilo", "kilos"), ("kilogramo", "kilos"),
   ("kilogramos", "kilos"),
   ("ton", "toneladas"), ("t", "toneladas"), ("tonelada", "toneladas"),
   ("toneladas", "toneladas"),
   ("caja", "cajas"), ("cajas", "cajas")]

/-- database.py normalize_unit: lower-case, trim, then map known synonyms,
unknown strings passing through unchanged. -/
def normalize_unit (unit : String) : String :=
  let unit_lower := pyLower (pyStrip unit)
  (UNIT_NORMALIZATION.lookup unit_lower).getD unit_lower

/-- database.py CONVERSION_FACTORS: factor table over canonical unit pairs. -/
def CONVERSION_FACTORS : List ((String × String) × ℚ) :=
  [(("kilos", "kilos"), 1), (("toneladas", "toneladas"), 1), (("cajas", "cajas"), 1),
   (("kilos", "toneladas"), 1/1000), (("toneladas", "kilos"), 1000),
   (("cajas", "kilos"), 50), (("kilos", "cajas"), 1/50),
   (("cajas", "toneladas"), 50/1000), (("toneladas", "cajas"), 1/(50/1000))]

/-- database.py convert_units: normalize both units, look up the factor
(defaulting to 1), scale the quantity by it and divide the price by it
(guarding a zero factor). -/
def convert_units (transaction_unit inventory_unit : String) (cantidad precio : ℚ) :
    ℚ × ℚ :=
  let trans_unit := normalize_unit transaction_unit
  let invent_unit := normalize_unit inventory_unit
  let factor := (CONVERSION_FACTORS.lookup (trans_unit, invent_unit)).getD 1
  let nueva_cantidad := cantidad * factor
  let nuevo_precio := if factor ≠ 0 then precio / factor else precio
  (nueva_cantidad, nuevo_precio)

/-- One row of the inventario table (minus its key). -/
structure InvRecord where
  cantidad : ℚ
  unidad : String
deriving DecidableEq

/-- The inventario table: producto is the primary key. -/
abbrev Inventario := List (String × InvRecord)

/-- SELECT cantidad, unidad FROM inventario WHERE producto = ? (first row). -/
def invLookup (inv : Inventario) (producto : String) : Option InvRecord :=
  inv.lookup producto

/-- UPDATE inventario SET cantidad = ? WHERE producto = ? . -/
def invUpdate (inv : Inventario) (producto : String) (q : ℚ) : Inventario :=
  inv.map (fun e => if e.1 == producto then (e.1, { e.2 with cantidad := q }) else e)

/-- database.py actualizar_inventario: purchases add (creating the record if
absent), sales subtract with an insufficient-stock guard and fail on an
unknown product; other kinds rewrite the quantity unchanged. -/
def actualizar_inventario (inv : Inventario) (producto transaction_unit : String)
    (cantidad : ℚ) (tipo : String) : Except DBError Inventario :=
  match invLookup inv producto with
  | some r =>
      let cantidad_convertida := (convert_units transaction_unit r.unidad cantidad 0).1
      if tipo == "compra" then
        .ok (invUpdate inv producto (r.cantidad + cantidad_convertida))
      else if tipo == "venta" then
        let nueva_cantidad := r.cantidad - cantidad_convertida
        if nueva_cantidad < 0 then
          .error (.insufficientStock producto r.cantidad r.unidad)
        else
          .ok (invUpdate inv producto nueva_cantidad)
      else
        .ok (invUpdate inv producto r.cantidad)
  | none =>
      if tipo == "compra" then
        .ok (inv ++ [(producto, ⟨cantidad, transaction_unit⟩)])
      else if tipo == "venta" then
        .error (.unknownProduct producto)
      else
        .ok inv

/-- One row of the transacciones table. -/
structure Transaccion where
  id : String
  usuario : String
  tipo : String
  producto : String
  cantidad : ℚ
  unidad : String
  precio : ℚ
  cliente : String
  notas : String
  fecha : String
deriving DecidableEq

/-- The transacciones table, in insertion order. -/
abbrev Ledger := List Transaccion

/-- The whole SQLite database. -/
structure DBState where
  trans : Ledger
  inv : Inventario
deriving DecidableEq

/-- SELECT ... FROM transacciones WHERE id = ? (first row). -/
def ledgerLookup (L : Ledger) (transaccion_id : String) : Option Transaccion :=
  L.find? (fun t => t.id == transaccion_id)

/-- UPDATE transacciones SET tipo, producto, cantidad, unidad, precio, cliente,
notas WHERE id = ? : exactly these seven columns are written; id, usuario and
fecha are not in the SET list. -/
def ledgerUpdateRow (L : Ledger) (transaccion_id tipo producto : String) (cantidad : ℚ)
    (unidad : String) (precio : ℚ) (cliente notas : String) : Ledger :=
  L.map (fun t =>
    if t.id == transaccion_id then
      { t with tipo := tipo, producto := producto, cantidad := cantidad,
               unidad := unidad, precio := precio, cliente := cliente, notas := notas }
    else t)

/-- database.py agregar_transaccion: normalize the optional fields, default the
id and the date (uuid4 and datetime.now are passed in as fresh_id and
now_fecha), INSERT and commit the ledger row, and only then apply the inventory
effect for a compra or venta.  The returned state is the database as left
behind even when the inventory step raises. -/
def agregar_transaccion (st : DBState) (usuario tipo producto : String) (cantidad : ℚ)
    (unidad : String) (precio : ℚ) (cliente notas fecha : Option String)
    (transaccion_id : String) (fresh_id now_fecha : String) :
    DBState × Except DBError String :=
  let cliente := pyStrip (cliente.getD "")
  let notas := pyStrip (notas.getD "")
  let producto := pyStrip producto
  let unidad := pyLower (pyStrip unidad)
  let tid := if transaccion_id == "" then fresh_id else transaccion_id
  let fecha := match fecha with
    | none => now_fecha
    | some f => if f == "" then now_fecha else f
  let st1 : DBState :=
    { st with trans := st.trans ++
        [⟨tid, usuario, tipo, producto, cantidad, unidad, precio, cliente, notas, fecha⟩] }
  if tipo == "compra" || tipo == "venta" then
    match actualizar_inventario st1.inv producto unidad cantidad tipo with
    | .ok inv2 => ({ st1 with inv := inv2 }, .ok tid)
    | .error e => (st1, .error e)
  else
    (st1, .ok tid)

/-- The reversal kind computed inside modificar/eliminar_transaccion. -/
def flip_tipo (tipo : String) : String :=
  if tipo == "compra" then "venta" else "compra"

/-- The partial-update mapping nuevos_datos: presence or absence per key.
The usuario and fecha keys can be supplied but are ignored by the update
loop of modificar_transaccion, which walks only the seven listed fields. -/
structure NuevosDatos where
  tipo : Option String := none
  producto : Option String := none
  cantidad : Option ℚ := none
  unidad : Option String := none
  precio : Option ℚ := none
  cliente : Option String := none
  notas : Option String := none
  usuario : Option String := none
  fecha : Option String := none
deriving DecidableEq

/-- The overlay loop of modificar_transaccion: for each of tipo, producto,
cantidad, unidad, precio, cliente, notas present in nuevos_datos, replace the
stored value; usuario and fecha are not consulted. -/
def overlay (old : Transaccion) (nd : NuevosDatos) : Transaccion :=
  { old with
    tipo := nd.tipo.getD old.tipo,
    producto := nd.producto.getD old.producto,
    cantidad := nd.cantidad.getD old.cantidad,
    unidad := nd.unidad.getD old.unidad,
    precio := nd.precio.getD old.precio,
    cliente := nd.cliente.getD old.cliente,
    notas := nd.notas.getD old.notas }

/-- database.py modificar_transaccion: load and ownership-check the row, revert
the original inventory effect (compra/venta only), overlay the new fields,
rewrite the row, then re-apply the new inventory effect.  A failure in the
re-apply step happens after the reversal and the row rewrite have committed. -/
def modificar_transaccion (st : DBState) (transaccion_id usuario : String)
    (nuevos_datos : NuevosDatos) : DBState × Except DBError Unit :=
  match ledgerLookup st.trans transaccion_id with
  | none => (st, .error .notFound)
  | some old =>
    if old.usuario ≠ usuario then (st, .error .permissionDenied)
    else
      let revertido : Except DBError Inventario :=
        if old.tipo == "compra" || old.tipo == "venta" then
          actualizar_inventario st.inv old.producto old.unidad old.cantidad
            (flip_tipo old.tipo)
        else .ok st.inv
      match revertido with
      | .error e => (st, .error e)
      | .ok inv1 =>
        let nuevo := overlay old nuevos_datos
        let trans2 := ledgerUpdateRow st.trans transaccion_id nuevo.tipo nuevo.producto
          nuevo.cantidad nuevo.unidad nuevo.precio nuevo.cliente nuevo.notas
        if nuevo.tipo == "compra" || nuevo.tipo == "venta" then
          match actualizar_inventario inv1 nuevo.producto nuevo.unidad nuevo.cantidad
              nuevo.tipo with
          | .ok inv2 => (⟨trans2, inv2⟩, .ok ())
          | .error e => (⟨trans2, inv1⟩, .error e)
        else
          (⟨trans2, inv1⟩, .ok ())

/-- database.py eliminar_transaccion: load and ownership-check the row, revert
its inventory effect (compra/venta only), then DELETE the row.  The reversal
precedes the delete, so a reversal failure leaves everything untouched. -/
def eliminar_transaccion (st : DBState) (transaccion_id usuario : String) :
    DBState × Except DBError Unit :=
  match ledgerLookup st.trans transaccion_id with
  | none => (st, .error .notFound)
  | some tr =>
    if tr.usuario ≠ usuario then (st, .error .permissionDenied)
    else
      let revertido : Except DBError Inventario :=
        if tr.tipo == "compra" || tr.tipo == "venta" then
          actualizar_inventario st.inv tr.producto tr.unidad tr.cantidad
            (flip_tipo tr.tipo)
        else .ok st.inv
      match revertido with
      | .error e => (st, .error e)
      | .ok inv1 =>
        (⟨st.trans.filter (fun t => t.id != transaccion_id), inv1⟩, .ok ())

/-- Bytewise (memcmp) strict order on character sequences: how SQLite compares
two TEXT values under the default BINARY collation (the fecha strings of this
program are ASCII, so codepoint order and byte order agree). -/
def charListLt : List Char → List Char → Bool
  | [], [] => false
  | [], _ :: _ => true
  | _ :: _, [] => false
  | a :: as, b :: bs => if a < b then true else if b < a then false else charListLt as bs

/-- Strict bytewise order on strings. -/
def strLtB (a b : String) : Bool := charListLt a.data b.data

/-- Insert a row into a list kept in descending bytewise fecha order. -/
def insertFechaDesc (t : Transaccion) : Ledger → Ledger
  | [] => [t]
  | u :: us => if strLtB t.fecha u.fecha then u :: insertFechaDesc t us else t :: u :: us

/-- database.py obtener_historial_df: SELECT the rows of one usuario ORDER BY
fecha DESC.  SQLite orders the TEXT column fecha by descending bytewise
comparison, modelled as an insertion sort with strLtB. -/
def obtener_historial_df (L : Ledger) (user_id : String) : Ledger :=
  (L.filter (fun t => t.usuario == user_id)).foldr insertFechaDesc []

/-- ollama_integration.py MAX_CONTEXT_LENGTH. -/
def MAX_CONTEXT_LENGTH : Nat := 2000

/-- One entry of the per-user message window. -/
structure Message where
  role : String
  content : String
deriving DecidableEq

/-- The per-user context of ollama_integration.py: the message window plus the
set of registered action ids (a Python set modelled as a duplicate-free
insertion list queried by membership). -/
structure Context where
  messages : List Message
  accion_ids : List String
deriving DecidableEq

/-- The character count the trimming loop sums: len of each content field. -/
def total_length (msgs : List Message) : Nat :=
  (msgs.map (fun m => m.content.data.length)).sum

/-- The while loop of ContextManager.add_message: pop the oldest message while
the running total exceeds MAX_CONTEXT_LENGTH and more than one message
remains. -/
def trim_messages : List Message → Nat → List Message
  | [], _ => []
  | [m], _ => [m]
  | m :: m2 :: rest, total =>
      if total > MAX_CONTEXT_LENGTH then
        trim_messages (m2 :: rest) (total - m.content.data.length)
      else
        m :: m2 :: rest

/-- ollama_integration.py ContextManager.add_message: append the new message,
then run the trimming loop on the summed content length. -/
def add_message (ctx : Context) (role content : String) : Context :=
  let msgs := ctx.messages ++ [⟨role, content⟩]
  { ctx with messages := trim_messages msgs (total_length msgs) }

/-- ollama_integration.py ContextManager.add_action_id: record the id unless it
is already present; the Bool reports acceptance. -/
def add_action_id (ctx : Context) (accion_id : String) : Context × Bool :=
  if ctx.accion_ids.contains accion_id then (ctx, false)
  else ({ ctx with accion_ids := ctx.accion_ids ++ [accion_id] }, true)

/-- ollama_integration.py ContextManager.is_action_id_registered. -/
def is_action_id_registered (ctx : Context) (accion_id : String) : Bool :=
  ctx.accion_ids.contains accion_id

/-- One action record handed to bot.py auto_handler by the extractor.  The
numeric fields arrive already converted (the float() step); isError marks a
record carrying the "error" key. -/
structure Accion where
  tipo : Option String := none
  producto : Option String := none
  cantidad : ℚ := 0
  precio : ℚ := 0
  unidad : Option String := none
  cliente : Option String := none
  nota : Option String := none
  transaccion_id : Option String := none
  isError : Bool := false
deriving DecidableEq

/-- The joint state the auto_handler loop mutates: the database plus the
per-user context. -/
structure BotState where
  db : DBState
  ctx : Context
deriving DecidableEq

/-- The agregar_transaccion call made by auto_handler for one action, with the
field defaulting and stripping done at the call site. -/
def run_accion_db (registrado_por : String) (db : DBState) (a : Accion)
    (tid fresh_row_id now_fecha : String) : DBState × Except DBError String :=
  agregar_transaccion db registrado_por (pyLower (pyStrip (a.tipo.getD "")))
    (pyStrip (a.producto.getD "")) a.cantidad (pyStrip (a.unidad.getD "unidades"))
    a.precio (some (pyStrip (a.cliente.getD ""))) (some (pyStrip (a.nota.getD "")))
    none tid fresh_row_id now_fecha

/-- The body of the per-action loop of bot.py auto_handler: skip error records,
default a missing or empty transaccion_id to a fresh uuid, reject an id already
registered in the context before touching the database, otherwise insert the
transaction and register the id only when the insert did not raise. -/
def process_accion (registrado_por : String) (bs : BotState) (a : Accion)
    (fresh_tid fresh_row_id now_fecha : String) : BotState :=
  if a.isError then bs
  else
    let tid := match a.transaccion_id with
      | none => fresh_tid
      | some s => if s == "" then fresh_tid else s
    if is_action_id_registered bs.ctx tid then bs
    else
      match run_accion_db registrado_por bs.db a tid fresh_row_id now_fecha with
      | (db2, .ok _) => ⟨db2, (add_action_id bs.ctx tid).1⟩
      | (db2, .error _) => ⟨db2, bs.ctx⟩

/-! Helper lemmas. -/

lemma invLookup_invUpdate (inv : Inventario) (p : String) (q : ℚ) :
    invLookup (invUpdate inv p q) p
      = (invLookup inv p).map (fun r => { r with cantidad := q }) := by
  induction inv with
  | nil => rfl
  | cons e es ih =>
    obtain ⟨p1, r1⟩ := e
    simp only [invLookup, invUpdate, List.map_cons] at ih ⊢
    cases he : (p1 == p) with
    | true =>
        have hp : p1 = p := by simpa using he
        subst hp
        simp [List.lookup]
    | false =>
        have h2 : (p == p1) = false := by
          simp only [beq_eq_false_iff_ne, ne_eq]
          intro hc
          subst hc
          simp at he
        simp only [List.lookup, h2]
        simpa [invLookup, invUpdate] using ih

lemma lookup_mem_snd {α β : Type} [BEq α] (l : List (α × β)) (k : α) (v : β)
    (h : l.lookup k = some v) : v ∈ l.map Prod.snd := by
  induction l with
  | nil => simp [List.lookup] at h
  | cons e es ih =>
    obtain ⟨k1, v1⟩ := e
    rw [List.lookup] at h
    cases hk : (k == k1) with
    | true =>
        rw [hk] at h
        simp only [Option.some.injEq] at h
        subst h
        simp
    | false =>
        rw [hk] at h
        simp only [List.map_cons, List.mem_cons]
        exact Or.inr (ih h)

lemma conversion_factor_ne_zero (k : String × String) :
    ((CONVERSION_FACTORS.lookup k).getD 1 : ℚ) ≠ 0 := by
  cases h : CONVERSION_FACTORS.lookup k with
  | none => norm_num
  | some f =>
    have hf := lookup_mem_snd _ _ _ h
    simp only [CONVERSION_FACTORS, List.map_cons, List.map_nil, List.mem_cons,
      List.not_mem_nil, or_false] at hf
    rcases hf with rfl | rfl | rfl | rfl | rfl | rfl | rfl | rfl | rfl <;> norm_num

lemma ledgerLookup_updateRow (L : Ledger) (tid tipo producto : String) (cantidad : ℚ)
    (unidad : String) (precio : ℚ) (cliente notas : String) :
    ledgerLookup (ledgerUpdateRow L tid tipo producto cantidad unidad precio cliente notas) tid
      = (ledgerLookup L tid).map (fun t =>
          { t with tipo := tipo, producto := producto, cantidad := cantidad,
                   unidad := unidad, precio := precio, cliente := cliente,
                   notas := notas }) := by
  induction L with
  | nil => rfl
  | cons t ts ih =>
    simp only [ledgerLookup, ledgerUpdateRow, List.map_cons] at ih ⊢
    cases he : (t.id == tid) with
    | true =>
        have hp : t.id = tid := by simpa using he
        simp [List.find?, hp]
    | false =>
        simp only [Bool.false_eq_true, if_false, List.find?, he]
        simpa [ledgerLookup, ledgerUpdateRow] using ih

/-! Literal evaluations used by the concrete-input theorems. -/

@[simp] lemma pyStrip_empty : pyStrip "" = "" := by decide

@[simp] lemma normalize_unit_kg : normalize_unit "kg" = "kilos" := by decide

@[simp] lemma normalize_unit_kilos : normalize_unit "kilos" = "kilos" := by decide

@[simp] lemma normalize_unit_toneladas : normalize_unit "toneladas" = "toneladas" := by decide

@[simp] lemma normalize_unit_cajas : normalize_unit "cajas" = "cajas" := by decide

@[simp] lemma normalize_unit_unidades : normalize_unit "unidades" = "unidades" := by decide

/-! ## C5: convert_units computes (q * f, p / f) with default factor 1 -/

/-- C5: for every pair of unit strings and positive quantity and price,
convert_units returns the quantity scaled by the table factor of the
normalized ordered pair and the price divided by it, the factor defaulting
to 1 when the pair is absent (no error raised); in particular
convert_units "kg" "toneladas" 1000 5 = (1, 5000). -/
theorem convert_units_spec (u v : String) (q p : ℚ) (hq : 0 < q) (hp : 0 < p) :
    convert_units u v q p
      = (q * ((CONVERSION_FACTORS.lookup (normalize_unit u, normalize_unit v)).getD 1),
         p / ((CONVERSION_FACTORS.lookup (normalize_unit u, normalize_unit v)).getD 1))
    ∧ convert_units "kg" "toneladas" 1000 5 = (1, 5000) := by
  constructor
  · have hfz := conversion_factor_ne_zero (normalize_unit u, normalize_unit v)
    simp only [convert_units]
    rw [if_pos hfz]
  · simp [convert_units, CONVERSION_FACTORS, List.lookup, instBEqProd]
    norm_num

/-- Witness for C5 at u = "kg", v = "toneladas", q = 1000, p = 5. -/
theorem convert_units_spec_witness :
    convert_units "kg" "toneladas" 1000 5
      = (1000 * ((CONVERSION_FACTORS.lookup
            (normalize_unit "kg", normalize_unit "toneladas")).getD 1),
         5 / ((CONVERSION_FACTORS.lookup
            (normalize_unit "kg", normalize_unit "toneladas")).getD 1))
    ∧ convert_units "kg" "toneladas" 1000 5 = (1, 5000) :=
  convert_units_spec "kg" "toneladas" 1000 5 (by norm_num) (by norm_num)

/-! ## C3: the insufficient-stock guard of actualizar_inventario -/

/-- C3: for a sale against an existing inventory record, if the sale quantity
converted into the unit of the record exceeds the stored quantity the call
fails with the insufficient-stock error carrying the untouched quantity and
unit, and the functional state is unchanged; when the sale is applied the
record keeps its unit and its new quantity is the difference, which is never
negative. -/
theorem actualizar_venta_guard (inv : Inventario) (producto unit : String)
    (cantidad : ℚ) (r : InvRecord) (hr : invLookup inv producto = some r) :
    (r.cantidad - (convert_units unit r.unidad cantidad 0).1 < 0 →
       actualizar_inventario inv producto unit cantidad "venta"
         = .error (.insufficientStock producto r.cantidad r.unidad))
    ∧ (∀ inv2, actualizar_inventario inv producto unit cantidad "venta" = .ok inv2 →
         invLookup inv2 producto
           = some ⟨r.cantidad - (convert_units unit r.unidad cantidad 0).1, r.unidad⟩
         ∧ 0 ≤ r.cantidad - (convert_units unit r.unidad cantidad 0).1) := by
  have h1 : (("venta" : String) == "compra") = false := by decide
  have h2 : (("venta" : String) == "venta") = true := by decide
  constructor
  · intro hlt
    simp only [actualizar_inventario, hr, h1, h2, Bool.false_eq_true, if_false, if_true]
    rw [if_pos hlt]
  · intro inv2 hok
    simp only [actualizar_inventario, hr, h1, h2, Bool.false_eq_true, if_false,
      if_true] at hok
    by_cases hlt : r.cantidad - (convert_units unit r.unidad cantidad 0).1 < 0
    · rw [if_pos hlt] at hok
      exact absurd hok (by simp)
    · rw [if_neg hlt] at hok
      simp only [Except.ok.injEq] at hok
      subst hok
      refine ⟨?_, le_of_not_lt (by simpa using hlt)⟩
      rw [invLookup_invUpdate, hr]
      rfl

/-- Witness for C3: selling 2000 kilos against a record of 500 kilos fails with
the insufficient-stock error and the record is untouched. -/
theorem actualizar_venta_guard_witness :
    actualizar_inventario [("x", ⟨500, "kilos"⟩)] "x" "kilos" 2000 "venta"
      = .error (.insufficientStock "x" 500 "kilos") :=
  (actualizar_venta_guard [("x", ⟨500, "kilos"⟩)] "x" "kilos" 2000 ⟨500, "kilos"⟩ rfl).1
    (by simp [convert_units, CONVERSION_FACTORS, List.lookup, instBEqProd]; norm_num)

/-! ## C1: an inventory failure on create leaves the appended ledger row -/

@[simp] lemma pyStrip_arroz : pyStrip "arroz" = "arroz" := by decide

@[simp] lemma pyStrip_kilos : pyStrip "kilos" = "kilos" := by decide

@[simp] lemma pyLower_kilos : pyLower "kilos" = "kilos" := by decide

@[simp] lemma pyLower_empty : pyLower "" = "" := by decide

/-- C1: when the tipo is compra or venta and the inventory application fails on
the inserted values, agregar_transaccion returns that error, the new ledger row
is still appended (not rolled back, retried or deleted), and the inventory is
unchanged. -/
theorem agregar_err_persists (st : DBState) (usuario tipo producto : String)
    (cantidad : ℚ) (unidad : String) (precio : ℚ) (cliente notas fecha : Option String)
    (transaccion_id fresh_id now_fecha : String) (e : DBError)
    (htipo : tipo = "compra" ∨ tipo = "venta")
    (hfail : actualizar_inventario st.inv (pyStrip producto) (pyLower (pyStrip unidad))
        cantidad tipo = .error e) :
    (agregar_transaccion st usuario tipo producto cantidad unidad precio cliente notas
        fecha transaccion_id fresh_id now_fecha).2 = .error e
    ∧ (agregar_transaccion st usuario tipo producto cantidad unidad precio cliente notas
        fecha transaccion_id fresh_id now_fecha).1.trans
      = st.trans ++
          [⟨if transaccion_id == "" then fresh_id else transaccion_id,
            usuario, tipo, pyStrip producto, cantidad, pyLower (pyStrip unidad), precio,
            pyStrip (cliente.getD ""), pyStrip (notas.getD ""),
            match fecha with
            | none => now_fecha
            | some f => if f == "" then now_fecha else f⟩]
    ∧ (agregar_transaccion st usuario tipo producto cantidad unidad precio cliente notas
        fecha transaccion_id fresh_id now_fecha).1.inv = st.inv := by
  have hb : (tipo == "compra" || tipo == "venta") = true := by
    rcases htipo with rfl | rfl <;> decide
  simp only [agregar_transaccion, hb, if_true]
  rw [hfail]
  exact ⟨rfl, rfl, rfl⟩

/-- Witness for C1: a venta of a product with no inventory record fails with
the unknown-product error while the ledger row stays appended. -/
theorem agregar_err_persists_witness :
    (agregar_transaccion ⟨[], []⟩ "u" "venta" "arroz" 5 "kilos" 2 none none none
        "T9" "F" "d").2 = .error (.unknownProduct "arroz")
    ∧ (agregar_transaccion ⟨[], []⟩ "u" "venta" "arroz" 5 "kilos" 2 none none none
        "T9" "F" "d").1.trans
      = [⟨"T9", "u", "venta", "arroz", 5, "kilos", 2, "", "", "d"⟩]
    ∧ (agregar_transaccion ⟨[], []⟩ "u" "venta" "arroz" 5 "kilos" 2 none none none
        "T9" "F" "d").1.inv = [] := by
  have h := agregar_err_persists ⟨[], []⟩ "u" "venta" "arroz" 5 "kilos" 2 none none none
    "T9" "F" "d" (.unknownProduct "arroz") (Or.inr rfl)
    (by simp [actualizar_inventario, invLookup, List.lookup])
  simpa using h

/-! ## C6: purchase 10 cajas then sell 100 kilos of maiz -/

@[simp] lemma pyStrip_maiz : pyStrip "maíz" = "maíz" := by decide

@[simp] lemma pyStrip_cajas : pyStrip "cajas" = "cajas" := by decide

@[simp] lemma pyLower_cajas : pyLower "cajas" = "cajas" := by decide

/-- The database after creating the purchase of 10 cajas of maíz. -/
def c6_paso1 : DBState × Except DBError String :=
  agregar_transaccion ⟨[], []⟩ "u" "compra" "maíz" 10 "cajas" 100 none none none
    "C1" "C1" "d1"

/-- The database after then creating the sale of 100 kilos of maíz. -/
def c6_paso2 : DBState × Except DBError String :=
  agregar_transaccion c6_paso1.1 "u" "venta" "maíz" 100 "kilos" 3 none none none
    "C2" "C2" "d2"

/-- C6: starting from an empty inventory, a purchase of 10 cajas of maíz
followed by a sale of 100 kilos leaves the record at 8 cajas, the canonical
unit fixed by the first purchase, which converts to 400 kilos (10 times 50
minus 100); both operations succeed. -/
theorem compra_cajas_venta_kilos :
    invLookup c6_paso2.1.inv "maíz" = some ⟨8, "cajas"⟩
    ∧ (convert_units "cajas" "kilos" 8 0).1 = 400
    ∧ c6_paso1.2 = .ok "C1" ∧ c6_paso2.2 = .ok "C2" := by
  have h1 : c6_paso1 = (⟨[⟨"C1", "u", "compra", "maíz", 10, "cajas", 100, "", "", "d1"⟩],
      [("maíz", ⟨10, "cajas"⟩)]⟩, .ok "C1") := by
    simp [c6_paso1, agregar_transaccion, actualizar_inventario, invLookup, List.lookup]
  have h2 : c6_paso2 = (⟨[⟨"C1", "u", "compra", "maíz", 10, "cajas", 100, "", "", "d1"⟩,
      ⟨"C2", "u", "venta", "maíz", 100, "kilos", 3, "", "", "d2"⟩],
      [("maíz", ⟨8, "cajas"⟩)]⟩, .ok "C2") := by
    rw [c6_paso2, h1]
    simp [agregar_transaccion, actualizar_inventario, invLookup, invUpdate,
      convert_units, CONVERSION_FACTORS, List.lookup, instBEqProd]
    norm_num
  rw [h2, h1]
  refine ⟨rfl, ?_, rfl, rfl⟩
  simp [convert_units, CONVERSION_FACTORS, List.lookup, instBEqProd]
  norm_num

/-! ## C4: ORDER BY fecha DESC does not order by creation time -/

@[simp] lemma pyStrip_p : pyStrip "p" = "p" := by decide

/-- The database after a first transaction created on 2 January 2025. -/
def c4_paso1 : DBState × Except DBError String :=
  agregar_transaccion ⟨[], []⟩ "u" "compra" "p" 1 "kilos" 1 none none none
    "A" "A" "02/01/2025 01:00AM"

/-- The database after a second transaction created on 1 February 2025. -/
def c4_paso2 : DBState × Except DBError String :=
  agregar_transaccion c4_paso1.1 "u" "compra" "p" 1 "kilos" 1 none none none
    "B" "B" "01/02/2025 01:00AM"

/-- C4 failing input evaluated: the row created on 2 January 2025 (fecha
"02/01/2025 01:00AM") sorts before the row created on 1 February 2025 (fecha
"01/02/2025 01:00AM"), because ORDER BY fecha DESC compares the dd/mm/yyyy
text bytewise; the chronologically most recent entry is returned last, against
the docstring of obtener_historial_df and the query-by-actor contract. -/
theorem historial_no_ordena_por_creacion :
    obtener_historial_df c4_paso2.1.trans "u"
      = [⟨"A", "u", "compra", "p", 1, "kilos", 1, "", "", "02/01/2025 01:00AM"⟩,
         ⟨"B", "u", "compra", "p", 1, "kilos", 1, "", "", "01/02/2025 01:00AM"⟩] := by
  have h1 : c4_paso1.1 = ⟨[⟨"A", "u", "compra", "p", 1, "kilos", 1, "", "",
      "02/01/2025 01:00AM"⟩], [("p", ⟨1, "kilos"⟩)]⟩ := by
    simp [c4_paso1, agregar_transaccion, actualizar_inventario, invLookup, List.lookup]
  have h2 : c4_paso2.1.trans = [⟨"A", "u", "compra", "p", 1, "kilos", 1, "", "",
      "02/01/2025 01:00AM"⟩, ⟨"B", "u", "compra", "p", 1, "kilos", 1, "", "",
      "01/02/2025 01:00AM"⟩] := by
    rw [c4_paso2, h1]
    simp [agregar_transaccion, actualizar_inventario, invLookup, invUpdate,
      convert_units, CONVERSION_FACTORS, List.lookup, instBEqProd]
  rw [h2]
  have hlt : strLtB "01/02/2025 01:00AM" "02/01/2025 01:00AM" = true := by decide
  have hge : strLtB "02/01/2025 01:00AM" "01/02/2025 01:00AM" = false := by decide
  simp [obtener_historial_df, insertFechaDesc, hlt, hge]

/-! ## C2: inventory failures on modify and delete -/

/-- Counterexample to C2 as stated: modifying a compra of 10 kilos into a venta
of 100 kilos first reverts the purchase (inventory 10 to 0) and rewrites the
ledger row, and only then fails applying the new venta; the error surfaces but
the ledger row and the inventory are both left different from their pre-call
values. -/
theorem modificar_reaplicacion_muta :
    (modificar_transaccion
        ⟨[⟨"T1", "u", "compra", "maiz", 10, "kilos", 4, "", "", "f1"⟩],
         [("maiz", ⟨10, "kilos"⟩)]⟩ "T1" "u"
        { tipo := some "venta", cantidad := some 100 }).2
      = .error (.insufficientStock "maiz" 0 "kilos")
    ∧ (modificar_transaccion
        ⟨[⟨"T1", "u", "compra", "maiz", 10, "kilos", 4, "", "", "f1"⟩],
         [("maiz", ⟨10, "kilos"⟩)]⟩ "T1" "u"
        { tipo := some "venta", cantidad := some 100 }).1
      ≠ ⟨[⟨"T1", "u", "compra", "maiz", 10, "kilos", 4, "", "", "f1"⟩],
         [("maiz", ⟨10, "kilos"⟩)]⟩ := by
  have h : modificar_transaccion
      ⟨[⟨"T1", "u", "compra", "maiz", 10, "kilos", 4, "", "", "f1"⟩],
       [("maiz", ⟨10, "kilos"⟩)]⟩ "T1" "u"
      { tipo := some "venta", cantidad := some 100 }
      = (⟨[⟨"T1", "u", "venta", "maiz", 100, "kilos", 4, "", "", "f1"⟩],
          [("maiz", ⟨0, "kilos"⟩)]⟩, .error (.insufficientStock "maiz" 0 "kilos")) := by
    simp [modificar_transaccion, ledgerLookup, ledgerUpdateRow, overlay, flip_tipo,
      actualizar_inventario, invLookup, invUpdate, convert_units, CONVERSION_FACTORS,
      List.lookup, List.find?, instBEqProd]
  rw [h]
  exact ⟨rfl, by simp⟩

/-- C2 amended: an inventory-level failure aborts a delete with no mutation at
all, and aborts a modify with no mutation when it strikes in the reversal step
(which precedes the ledger rewrite); a failure in the re-apply step of modify,
by contrast, leaves the row rewritten and the original effect reverted, as the
counterexample shows. -/
theorem inv_fallo_antes_de_mutacion :
    (∀ st tid u e, (eliminar_transaccion st tid u).2 = Except.error e →
        (eliminar_transaccion st tid u).1 = st)
    ∧ (∀ st tid u nd old e, ledgerLookup st.trans tid = some old →
        old.usuario = u →
        (old.tipo = "compra" ∨ old.tipo = "venta") →
        actualizar_inventario st.inv old.producto old.unidad old.cantidad
          (flip_tipo old.tipo) = .error e →
        modificar_transaccion st tid u nd = (st, .error e)) := by
  constructor
  · intro st tid u e he
    unfold eliminar_transaccion at he ⊢
    cases h : ledgerLookup st.trans tid with
    | none => simp [h]
    | some tr =>
      simp only [h] at he ⊢
      by_cases hu : tr.usuario ≠ u
      · simp [hu]
      · rw [if_neg hu] at he ⊢
        cases hrev : (if tr.tipo == "compra" || tr.tipo == "venta" then
            actualizar_inventario st.inv tr.producto tr.unidad tr.cantidad
              (flip_tipo tr.tipo)
          else .ok st.inv) with
        | error e2 => simp [hrev]
        | ok inv1 =>
          rw [hrev] at he
          exact absurd he (by simp)
  · intro st tid u nd old e hold huser htipo hrev
    have hb : (old.tipo == "compra" || old.tipo == "venta") = true := by
      rcases htipo with h | h <;> simp [h]
    simp only [modificar_transaccion, hold]
    rw [if_neg (by simp [huser])]
    simp only [hb, if_true, hrev]

/-- Witness for the amended C2: deleting or modifying a compra whose product
has no inventory record fails reverting (unknown product) and leaves the
database exactly as it was. -/
theorem inv_fallo_antes_de_mutacion_witness :
    (eliminar_transaccion ⟨[⟨"T2", "u", "compra", "q", 5, "kilos", 1, "", "", "f"⟩], []⟩
        "T2" "u").1
      = ⟨[⟨"T2", "u", "compra", "q", 5, "kilos", 1, "", "", "f"⟩], []⟩
    ∧ modificar_transaccion ⟨[⟨"T2", "u", "compra", "q", 5, "kilos", 1, "", "", "f"⟩], []⟩
        "T2" "u" { precio := some 2 }
      = (⟨[⟨"T2", "u", "compra", "q", 5, "kilos", 1, "", "", "f"⟩], []⟩,
         .error (.unknownProduct "q")) := by
  constructor
  · exact inv_fallo_antes_de_mutacion.1 _ "T2" "u" (.unknownProduct "q")
      (by simp [eliminar_transaccion, ledgerLookup, List.find?, flip_tipo,
        actualizar_inventario, invLookup, List.lookup])
  · exact inv_fallo_antes_de_mutacion.2 _ "T2" "u" { precio := some 2 }
      ⟨"T2", "u", "compra", "q", 5, "kilos", 1, "", "", "f"⟩ (.unknownProduct "q")
      (by simp [ledgerLookup, List.find?]) rfl (Or.inl rfl)
      (by simp [flip_tipo, actualizar_inventario, invLookup, List.lookup])

/-! ## C7 and C10: the frame of a successful modify -/

lemma modificar_ok_shape (st : DBState) (tid u : String) (nd : NuevosDatos)
    (old : Transaccion) (st2 : DBState)
    (hold : ledgerLookup st.trans tid = some old)
    (hrun : modificar_transaccion st tid u nd = (st2, .ok ())) :
    st2.trans = ledgerUpdateRow st.trans tid (overlay old nd).tipo
      (overlay old nd).producto (overlay old nd).cantidad (overlay old nd).unidad
      (overlay old nd).precio (overlay old nd).cliente (overlay old nd).notas := by
  simp only [modificar_transaccion, hold] at hrun
  split at hrun
  · exact absurd hrun (by simp)
  · split at hrun
    · exact absurd hrun (by simp)
    · split at hrun
      · split at hrun
        · injection hrun with h1 h2
          rw [← h1]
        · exact absurd hrun (by simp)
      · injection hrun with h1 h2
        rw [← h1]

/-- C7: after a successful modify, the stored row holds the new value for every
field present in nuevos_datos and the prior value for every field absent from
it (Option.getD states both at once); id, usuario and fecha always keep their
prior values. -/
theorem modificar_solo_campos_presentes (st : DBState) (tid u : String)
    (nd : NuevosDatos) (old : Transaccion) (st2 : DBState)
    (hold : ledgerLookup st.trans tid = some old)
    (hrun : modificar_transaccion st tid u nd = (st2, .ok ())) :
    ∃ t2, ledgerLookup st2.trans tid = some t2
      ∧ t2.tipo = nd.tipo.getD old.tipo
      ∧ t2.producto = nd.producto.getD old.producto
      ∧ t2.cantidad = nd.cantidad.getD old.cantidad
      ∧ t2.unidad = nd.unidad.getD old.unidad
      ∧ t2.precio = nd.precio.getD old.precio
      ∧ t2.cliente = nd.cliente.getD old.cliente
      ∧ t2.notas = nd.notas.getD old.notas
      ∧ t2.id = old.id ∧ t2.usuario = old.usuario ∧ t2.fecha = old.fecha := by
  have hsh := modificar_ok_shape st tid u nd old st2 hold hrun
  rw [hsh, ledgerLookup_updateRow, hold]
  exact ⟨_, rfl, rfl, rfl, rfl, rfl, rfl, rfl, rfl, rfl, rfl, rfl⟩

/-- Witness for C7: modifying only the producto of an entry changes exactly
that stored field. -/
theorem modificar_solo_campos_presentes_witness :
    ∃ t2, ledgerLookup [⟨"T3", "u", "otro", "nuevo", 1, "kilos", 2, "c", "n", "f"⟩]
        "T3" = some t2
      ∧ t2.tipo = "otro" ∧ t2.producto = "nuevo" ∧ t2.cantidad = 1 ∧ t2.unidad = "kilos"
      ∧ t2.precio = 2 ∧ t2.cliente = "c" ∧ t2.notas = "n"
      ∧ t2.id = "T3" ∧ t2.usuario = "u" ∧ t2.fecha = "f" := by
  have h := modificar_solo_campos_presentes
    ⟨[⟨"T3", "u", "otro", "p", 1, "kilos", 2, "c", "n", "f"⟩], []⟩ "T3" "u"
    { producto := some "nuevo" } ⟨"T3", "u", "otro", "p", 1, "kilos", 2, "c", "n", "f"⟩
    ⟨[⟨"T3", "u", "otro", "nuevo", 1, "kilos", 2, "c", "n", "f"⟩], []⟩
    (by simp [ledgerLookup, List.find?])
    (by simp [modificar_transaccion, ledgerLookup, List.find?, overlay, ledgerUpdateRow])
  simpa using h

/-- C10: a successful modify never changes the stored id, usuario or fecha,
even when nuevos_datos carries usuario or fecha entries: the overlay loop walks
only the seven modifiable fields and the UPDATE statement does not write these
columns, so ownership and creation time cannot be transferred. -/
theorem modificar_preserva_identidad (st : DBState) (tid u : String)
    (nd : NuevosDatos) (old : Transaccion) (st2 : DBState)
    (hold : ledgerLookup st.trans tid = some old)
    (hrun : modificar_transaccion st tid u nd = (st2, .ok ())) :
    ∃ t2, ledgerLookup st2.trans tid = some t2
      ∧ t2.id = old.id ∧ t2.usuario = old.usuario ∧ t2.fecha = old.fecha := by
  have hsh := modificar_ok_shape st tid u nd old st2 hold hrun
  rw [hsh, ledgerLookup_updateRow, hold]
  exact ⟨_, rfl, rfl, rfl, rfl⟩

/-- Witness for C10: a nuevos_datos carrying usuario and fecha entries leaves
the stored usuario and fecha untouched. -/
theorem modificar_preserva_identidad_witness :
    ∃ t2, ledgerLookup [⟨"T4", "u", "otro", "p", 7, "kilos", 2, "c", "n", "f"⟩]
        "T4" = some t2
      ∧ t2.id = "T4" ∧ t2.usuario = "u" ∧ t2.fecha = "f" := by
  have h := modificar_preserva_identidad
    ⟨[⟨"T4", "u", "otro", "p", 1, "kilos", 2, "c", "n", "f"⟩], []⟩ "T4" "u"
    { cantidad := some 7, usuario := some "evil", fecha := some "2099" }
    ⟨"T4", "u", "otro", "p", 1, "kilos", 2, "c", "n", "f"⟩
    ⟨[⟨"T4", "u", "otro", "p", 7, "kilos", 2, "c", "n", "f"⟩], []⟩
    (by simp [ledgerLookup, List.find?])
    (by simp [modificar_transaccion, ledgerLookup, List.find?, overlay, ledgerUpdateRow])
  simpa using h

/-! ## C8: duplicate action ids within one batch -/

/-- C8: inside one batch (whose start clears the accion id set, hence the empty
set hypothesis), when two non-error create actions carry the same nonempty
action id and the first insert succeeds, processing the first registers the id
and processing the second returns the state unchanged: no ledger insert and no
inventory change. -/
theorem lote_dedup (reg : String) (bs : BotState) (a1 a2 : Accion)
    (x f1 r1 nf1 f2 r2 nf2 : String)
    (he1 : a1.isError = false) (he2 : a2.isError = false)
    (ht1 : a1.transaccion_id = some x) (ht2 : a2.transaccion_id = some x)
    (hx : (x == "") = false)
    (hclear : bs.ctx.accion_ids = [])
    (hok : (run_accion_db reg bs.db a1 x r1 nf1).2 = .ok x) :
    is_action_id_registered (process_accion reg bs a1 f1 r1 nf1).ctx x = true
    ∧ process_accion reg (process_accion reg bs a1 f1 r1 nf1) a2 f2 r2 nf2
      = process_accion reg bs a1 f1 r1 nf1 := by
  have hreg : is_action_id_registered bs.ctx x = false := by
    simp [is_action_id_registered, hclear]
  have hstep : process_accion reg bs a1 f1 r1 nf1
      = ⟨(run_accion_db reg bs.db a1 x r1 nf1).1,
         { bs.ctx with accion_ids := bs.ctx.accion_ids ++ [x] }⟩ := by
    unfold process_accion
    simp only [he1, Bool.false_eq_true, if_false, ht1, hx, hreg]
    cases hp : run_accion_db reg bs.db a1 x r1 nf1 with
    | mk db2 res =>
      rw [hp] at hok
      simp only at hok
      subst hok
      simp [add_action_id, hclear]
  constructor
  · rw [hstep]
    simp [is_action_id_registered, hclear]
  · rw [hstep]
    unfold process_accion
    simp only [he2, Bool.false_eq_true, if_false, ht2, hx]
    simp [is_action_id_registered, hclear]

/-- First action of the witness batch: a compra carrying action id "A". -/
def c8_a1 : Accion :=
  { tipo := some "compra", producto := some "maíz", cantidad := 10, precio := 5,
    unidad := some "kilos", transaccion_id := some "A" }

/-- Second action of the witness batch: same action id "A". -/
def c8_a2 : Accion :=
  { tipo := some "venta", producto := some "maíz", cantidad := 3, precio := 5,
    unidad := some "kilos", transaccion_id := some "A" }

@[simp] lemma pyStrip_compra : pyStrip "compra" = "compra" := by decide

@[simp] lemma pyLower_compra : pyLower "compra" = "compra" := by decide

@[simp] lemma pyLower_maiz : pyLower "maíz" = "maíz" := by decide

/-- Witness for C8 on a concrete two-action batch sharing action id "A". -/
theorem lote_dedup_witness :
    is_action_id_registered
        (process_accion "w" ⟨⟨[], []⟩, ⟨[], []⟩⟩ c8_a1 "F1" "R1" "d1").ctx "A" = true
    ∧ process_accion "w" (process_accion "w" ⟨⟨[], []⟩, ⟨[], []⟩⟩ c8_a1 "F1" "R1" "d1")
        c8_a2 "F2" "R2" "d2"
      = process_accion "w" ⟨⟨[], []⟩, ⟨[], []⟩⟩ c8_a1 "F1" "R1" "d1" :=
  lote_dedup "w" ⟨⟨[], []⟩, ⟨[], []⟩⟩ c8_a1 c8_a2 "A" "F1" "R1" "d1" "F2" "R2" "d2"
    rfl rfl rfl rfl (by decide) rfl
    (by simp [run_accion_db, c8_a1, agregar_transaccion, actualizar_inventario,
      invLookup, List.lookup])

/-! ## C9: the message-window budget of add_message -/

lemma trim_messages_suffix (msgs : List Message) (total : Nat) :
    List.IsSuffix (trim_messages msgs total) msgs := by
  induction msgs generalizing total with
  | nil => simp [trim_messages]
  | cons m tail ih =>
    cases tail with
    | nil => simp [trim_messages]
    | cons m2 rest =>
      rw [trim_messages]
      by_cases hgt : total > MAX_CONTEXT_LENGTH
      · rw [if_pos hgt]
        exact (ih _).trans (List.suffix_cons m (m2 :: rest))
      · rw [if_neg hgt]

lemma trim_messages_budget (msgs : List Message) (total : Nat)
    (h : total = total_length msgs) :
    total_length (trim_messages msgs total) ≤ MAX_CONTEXT_LENGTH
      ∨ (trim_messages msgs total).length = 1 := by
  induction msgs generalizing total with
  | nil =>
    left
    simp [trim_messages, total_length]
  | cons m tail ih =>
    cases tail with
    | nil => right; rfl
    | cons m2 rest =>
      rw [trim_messages]
      by_cases hgt : total > MAX_CONTEXT_LENGTH
      · rw [if_pos hgt]
        apply ih
        subst h
        simp [total_length]
      · rw [if_neg hgt]
        left
        omega

lemma trim_messages_ne_nil (msgs : List Message) (total : Nat) (h : msgs ≠ []) :
    trim_messages msgs total ≠ [] := by
  induction msgs generalizing total with
  | nil => exact absurd rfl h
  | cons m tail ih =>
    cases tail with
    | nil => simp [trim_messages]
    | cons m2 rest =>
      rw [trim_messages]
      by_cases hgt : total > MAX_CONTEXT_LENGTH
      · rw [if_pos hgt]
        exact ih _ (by simp)
      · rw [if_neg hgt]
        simp

/-- C9 amended: after every add_message the window is a nonempty suffix of the
previous window plus the appended message (older messages dropped
oldest-first), and either its combined content length is at most
MAX_CONTEXT_LENGTH or it has shrunk to the single just-appended message, whose
content alone may exceed the budget.  This holds for every prior context, hence
for every sequence of add_message calls. -/
theorem ventana_acotada_o_singleton (ctx : Context) (role content : String) :
    (total_length (add_message ctx role content).messages ≤ MAX_CONTEXT_LENGTH
      ∨ (add_message ctx role content).messages.length = 1)
    ∧ List.IsSuffix (add_message ctx role content).messages
        (ctx.messages ++ [⟨role, content⟩])
    ∧ (add_message ctx role content).messages ≠ [] :=
  ⟨trim_messages_budget _ _ rfl,
   trim_messages_suffix _ _,
   trim_messages_ne_nil _ _ (by simp)⟩

/-- A single message whose content is 2001 characters long. -/
def c9_contenido : String := String.mk (List.replicate 2001 'a')

/-- Counterexample to C9 as stated: adding one message of 2001 characters to an
empty window leaves a window whose combined content length exceeds the
2000-character budget, because the trimming loop never drops the last remaining
message. -/
theorem ventana_excede_presupuesto :
    ¬ total_length (add_message ⟨[], []⟩ "user" c9_contenido).messages
        ≤ MAX_CONTEXT_LENGTH := by
  have h : (add_message ⟨[], []⟩ "user" c9_contenido).messages
      = [⟨"user", c9_contenido⟩] := rfl
  rw [h]
  have hlen : c9_contenido.length = 2001 := by
    simp only [c9_contenido, String.length, List.length_replicate]
  simp [total_length, MAX_CONTEXT_LENGTH, hlen]

end BotAdministrador
